import Mathlib

/-!
# Allowed-workspaces resource of an agent pool

A shallow embedding of
`internal/provider/resource_tfe_agent_pool_allowed_workspaces.go`.

* The remote API client is a deterministic machine over an arbitrary state
  type `σ`: each call maps the state before to a response and the state
  after.  Any remote behaviour, also one depending on the history of the
  calls, is an instance.
* Every operation returns an `Outcome`: the Go `error` it returns (`none` is
  `nil`), the resource data afterwards, the remote state afterwards, and the
  remote calls it made, in order, each with its response.
* A Go slice is an `Option (List α)`: `none` is the nil slice, `some []` the
  empty slice that is not nil.
-/

namespace TfeAgentPoolAllowedWorkspaces

/-! ## Go values -/

/-- A Go slice: `none` is the nil slice, `some l` a slice that is not nil. -/
abbrev Slice (α : Type) := Option (List α)

/-- The elements a `for ... range` loop over the slice visits. -/
def Slice.range {α : Type} : Slice α → List α
  | none => []
  | some l => l

/-- Go's `append(s, x)`: appending to the nil slice allocates. -/
def Slice.append {α : Type} (s : Slice α) (x : α) : Slice α :=
  some (s.range ++ [x])

/-- Go's `len(s)`. -/
def Slice.len {α : Type} (s : Slice α) : Nat := s.range.length

/-- Go error values, as far as the resource tells them apart.
`ErrResourceNotFound` is the sentinel `tfe.ErrResourceNotFound`; `errorString`
is any other error without a cause (also what `fmt.Errorf` builds when its
format has no `%w`); `wrapError` is what `fmt.Errorf` builds for a format with
`%w`, the message being the formatted text. -/
inductive GoError where
  | ErrResourceNotFound : GoError
  | errorString (msg : String) : GoError
  | wrapError (msg : String) (cause : GoError) : GoError
  deriving DecidableEq, Repr

/-- The method `Error()` of an error value. -/
def GoError.Error : GoError → String
  | .ErrResourceNotFound => "resource not found"
  | .errorString msg => msg
  | .wrapError msg _ => msg

/-- The test `errors.Is(err, tfe.ErrResourceNotFound)`: the sentinel is looked for along
the chain of causes. -/
def GoError.isErrResourceNotFound : GoError → Bool
  | .ErrResourceNotFound => true
  | .errorString _ => false
  | .wrapError _ cause => cause.isErrResourceNotFound

/-! ## The client library's types (fields the resource uses) -/

/-- A workspace reference `tfe.Workspace`; only `ID` is read or written. -/
structure Workspace where
  ID : String
  deriving DecidableEq, Repr

/-- The organization `tfe.Organization` of a pool; only `Name` is read. -/
structure Organization where
  Name : String
  deriving DecidableEq, Repr

/-- The pool `tfe.AgentPool` a successful call returns.  The pointers
`Organization` and the elements of `AllowedWorkspaces` are taken as populated, as
the resource dereferences them without a check. -/
structure AgentPool where
  ID : String
  OrganizationScoped : Bool
  Organization : Organization
  AllowedWorkspaces : Slice Workspace
  deriving DecidableEq, Repr

/-- The options `tfe.AgentPoolAllowedWorkspacesUpdateOptions`. -/
structure AgentPoolAllowedWorkspacesUpdateOptions where
  AllowedWorkspaces : Slice Workspace
  deriving DecidableEq, Repr

/-- What a remote call returns, `(*tfe.AgentPool, error)`: a pool with a nil error, or
an error. -/
inductive Response where
  | ok (agentPool : AgentPool) : Response
  | error (err : GoError) : Response
  deriving DecidableEq, Repr

/-- The two remote operations of `config.Client.AgentPools` the resource uses. -/
structure Client (σ : Type) where
  Read : σ → String → Response × σ
  UpdateAllowedWorkspaces : σ → String → AgentPoolAllowedWorkspacesUpdateOptions → Response × σ

/-- A remote call, with its arguments. -/
inductive Call where
  | Read (agentPoolID : String) : Call
  | UpdateAllowedWorkspaces (agentPoolID : String)
      (options : AgentPoolAllowedWorkspacesUpdateOptions) : Call
  deriving DecidableEq, Repr

/-- A remote call that was made, with the response it got. -/
structure Event where
  call : Call
  response : Response
  deriving DecidableEq, Repr

/-! ## The plugin framework's resource data -/

/-- The resource data `schema.ResourceData` of this resource's schema: the identifier
(`d.Id()`, the empty string when unset) and the two attributes.  An unset
attribute reads as its zero value, `""` or the empty set. -/
structure ResourceData where
  Id : String
  agent_pool_id : String
  allowed_workspace_ids : Finset String
  deriving DecidableEq

/-- The call `d.SetId(v)`. -/
def ResourceData.SetId (d : ResourceData) (v : String) : ResourceData :=
  { d with Id := v }

/-- The call `d.Get("agent_pool_id").(string)`. -/
def ResourceData.Get_agent_pool_id (d : ResourceData) : String :=
  d.agent_pool_id

/-- The call `d.GetOk("allowed_workspace_ids")`: the value, and whether it is set to
something other than the zero value of its type, the empty set. -/
def ResourceData.GetOk_allowed_workspace_ids (d : ResourceData) : Finset String × Bool :=
  (d.allowed_workspace_ids, decide (d.allowed_workspace_ids ≠ ∅))

/-- The method `(*schema.Set).List()`: the elements in an order that depends on the set
alone.  The framework orders them by a hash code; the model enumerates them in
the order of `String`. -/
def schemaSetList (s : Finset String) : List String :=
  s.sort (fun a b => a ≤ b)

/-- The call `d.Set("allowed_workspace_ids", v)` for a `[]string`. -/
def ResourceData.Set_allowed_workspace_ids (d : ResourceData) (v : Slice String) :
    ResourceData :=
  { d with allowed_workspace_ids := v.range.toFinset }

/-- The call `d.Set("agent_pool_id", v)`. -/
def ResourceData.Set_agent_pool_id (d : ResourceData) (v : String) : ResourceData :=
  { d with agent_pool_id := v }

/-! ## The four operations -/

/-- What an operation leaves behind. -/
structure Outcome (σ : Type) where
  err : Option GoError
  d : ResourceData
  remote : σ
  calls : List Event

/-- The loop of Create and Update over `allowedWorkspaceIDs.(*schema.Set).List()`,
appending one workspace reference per element. -/
def appendWorkspaces (init : Slice Workspace) (ids : List String) : Slice Workspace :=
  ids.foldl (fun acc val => acc.append { ID := val }) init

/-- The loop of Read over `agentPool.AllowedWorkspaces`, from `var allowedWorkspaceIDs
[]string`. -/
def collectWorkspaceIDs (ws : Slice Workspace) : Slice String :=
  ws.range.foldl (fun acc workspace => acc.append workspace.ID) none

/-- Embeds `resourceTFEAgentPoolAllowedWorkspacesRead`. -/
def resourceTFEAgentPoolAllowedWorkspacesRead {σ : Type} (client : Client σ)
    (d : ResourceData) (s : σ) : Outcome σ :=
  let r := client.Read s d.Id
  let calls := [Event.mk (Call.Read d.Id) r.1]
  match r.1 with
  | .error err =>
    if err.isErrResourceNotFound then
      { err := none, d := d.SetId "", remote := r.2, calls := calls }
    else
      { err := some (.wrapError
          ("error reading configuration of agent pool " ++ d.Id ++ ": " ++ err.Error) err),
        d := d, remote := r.2, calls := calls }
  | .ok agentPool =>
    let allowedWorkspaceIDs := collectWorkspaceIDs agentPool.AllowedWorkspaces
    let d1 := d.Set_allowed_workspace_ids allowedWorkspaceIDs
    let d2 := d1.Set_agent_pool_id agentPool.ID
    { err := none, d := d2, remote := r.2, calls := calls }

/-- Embeds `resourceTFEAgentPoolAllowedWorkspacesCreate`. -/
def resourceTFEAgentPoolAllowedWorkspacesCreate {σ : Type} (client : Client σ)
    (d : ResourceData) (s : σ) : Outcome σ :=
  let apID := d.Get_agent_pool_id
  let r := client.Read s apID
  let calls := [Event.mk (Call.Read apID) r.1]
  match r.1 with
  | .error err =>
    if err.isErrResourceNotFound then
      { err := none, d := d, remote := r.2, calls := calls }
    else
      { err := some (.wrapError
          ("Error reading configuration of agent pool: " ++ apID ++ " " ++ err.Error) err),
        d := d, remote := r.2, calls := calls }
  | .ok agentPool =>
    let options : AgentPoolAllowedWorkspacesUpdateOptions := { AllowedWorkspaces := none }
    if agentPool.OrganizationScoped then
      { err := some (.errorString
          ("error updating allowed workspaces on agent pool, workspaces already scoped for access to organization: "
            ++ agentPool.Organization.Name)),
        d := d, remote := r.2, calls := calls }
    else if !agentPool.OrganizationScoped then
      let got := d.GetOk_allowed_workspace_ids
      let options : AgentPoolAllowedWorkspacesUpdateOptions :=
        if got.2 then
          { options with
            AllowedWorkspaces := appendWorkspaces (some []) (schemaSetList got.1) }
        else options
      let u := client.UpdateAllowedWorkspaces r.2 apID options
      let calls := calls ++ [Event.mk (Call.UpdateAllowedWorkspaces apID options) u.1]
      match u.1 with
      | .error err =>
        { err := some (.wrapError
            ("error updating agent pool " ++ apID ++ ": " ++ err.Error) err),
          d := d, remote := u.2, calls := calls }
      | .ok _ =>
        let d1 := d.SetId apID
        let out := resourceTFEAgentPoolAllowedWorkspacesRead client d1 u.2
        { out with calls := calls ++ out.calls }
    else
      let out := resourceTFEAgentPoolAllowedWorkspacesRead client d r.2
      { out with calls := calls ++ out.calls }

/-- Embeds `resourceTFEAgentPoolAllowedWorkspacesUpdate`. -/
def resourceTFEAgentPoolAllowedWorkspacesUpdate {σ : Type} (client : Client σ)
    (d : ResourceData) (s : σ) : Outcome σ :=
  let apID := d.Get_agent_pool_id
  let r := client.Read s apID
  let calls := [Event.mk (Call.Read apID) r.1]
  match r.1 with
  | .error err =>
    if err.isErrResourceNotFound then
      { err := none, d := d, remote := r.2, calls := calls }
    else
      { err := some (.wrapError
          ("Error reading configuration of agent pool: " ++ apID ++ " " ++ err.Error) err),
        d := d, remote := r.2, calls := calls }
  | .ok agentPool =>
    let options : AgentPoolAllowedWorkspacesUpdateOptions := { AllowedWorkspaces := some [] }
    if agentPool.OrganizationScoped then
      { err := some (.errorString
          ("error updating allowed workspaces on agent pool, workspaces already scoped for access to organization: "
            ++ agentPool.Organization.Name)),
        d := d, remote := r.2, calls := calls }
    else if !agentPool.OrganizationScoped then
      let got := d.GetOk_allowed_workspace_ids
      let options : AgentPoolAllowedWorkspacesUpdateOptions :=
        if got.2 then
          { options with
            AllowedWorkspaces := appendWorkspaces (some []) (schemaSetList got.1) }
        else options
      let u := client.UpdateAllowedWorkspaces r.2 apID options
      let calls := calls ++ [Event.mk (Call.UpdateAllowedWorkspaces apID options) u.1]
      match u.1 with
      | .error err =>
        { err := some (.wrapError
            ("error updating agent pool " ++ apID ++ ": " ++ err.Error) err),
          d := d, remote := u.2, calls := calls }
      | .ok _ =>
        let d1 := d.SetId apID
        let out := resourceTFEAgentPoolAllowedWorkspacesRead client d1 u.2
        { out with calls := calls ++ out.calls }
    else
      let out := resourceTFEAgentPoolAllowedWorkspacesRead client d r.2
      { out with calls := calls ++ out.calls }

/-- Embeds `resourceTFEAgentPoolAllowedWorkspacesDelete`. -/
def resourceTFEAgentPoolAllowedWorkspacesDelete {σ : Type} (client : Client σ)
    (d : ResourceData) (s : σ) : Outcome σ :=
  let apID := d.Get_agent_pool_id
  let options : AgentPoolAllowedWorkspacesUpdateOptions := { AllowedWorkspaces := some [] }
  let r := client.UpdateAllowedWorkspaces s apID options
  let calls := [Event.mk (Call.UpdateAllowedWorkspaces apID options) r.1]
  match r.1 with
  | .error err =>
    { err := some (.wrapError ("error updating agent pool " ++ apID ++ ": " ++ err.Error) err),
      d := d, remote := r.2, calls := calls }
  | .ok _ =>
    { err := none, d := d, remote := r.2, calls := calls }

/-! ## Vocabulary of the statements -/

/-- Whether a remote call is an `UpdateAllowedWorkspaces` call. -/
def Call.isUpdateAllowedWorkspaces : Call → Bool
  | .Read _ => false
  | .UpdateAllowedWorkspaces _ _ => true

/-- Whether a remote call is a pool read. -/
def Call.isRead : Call → Bool
  | .Read _ => true
  | .UpdateAllowedWorkspaces _ _ => false

/-- Whether a response is a failure. -/
def Response.failed : Response → Bool
  | .ok _ => false
  | .error _ => true

/-- Whether a response is a failure that `errors.Is` recognises as not-found. -/
def Response.notFound : Response → Bool
  | .ok _ => false
  | .error err => err.isErrResourceNotFound

/-- The error Create and Update return for an organization-scoped pool. -/
def organizationScopedError (organizationName : String) : GoError :=
  .errorString
    ("error updating allowed workspaces on agent pool, workspaces already scoped for access to organization: "
      ++ organizationName)

/-- Every failing call among `calls` failed with not-found. -/
def failuresAreNotFound (calls : List Event) : Prop :=
  ∀ e ∈ calls, e.response.failed = true → e.response.notFound = true

/-- Every failing pool read among `calls` failed with not-found. -/
def readFailuresAreNotFound (calls : List Event) : Prop :=
  ∀ e ∈ calls, e.call.isRead = true → e.response.failed = true → e.response.notFound = true

/-- How Create and Update end when no pool read fails other than with not-found, told by
the error returned and the calls made, for the pool identifier `apID`:

* success, the only call being the pool read, answered with not-found;
* success, after the pool read reported a pool that is not organization-scoped,
  the `UpdateAllowedWorkspaces` call succeeded, and the pool was read again;
* the precondition error naming the organization of the pool, the only call
  being the pool read, which reported that pool as organization-scoped;
* the wrapped failure of the `UpdateAllowedWorkspaces` call, made after the pool
  read reported a pool that is not organization-scoped, and no call after it. -/
def endsRecovered {σ : Type} (out : Outcome σ) (apID : String) : Prop :=
  (out.err = none
      ∧ ∃ err, out.calls = [Event.mk (Call.Read apID) (.error err)]
          ∧ err.isErrResourceNotFound = true)
    ∨ (out.err = none
      ∧ ∃ p options q r,
          out.calls
              = [Event.mk (Call.Read apID) (.ok p),
                 Event.mk (Call.UpdateAllowedWorkspaces apID options) (.ok q),
                 Event.mk (Call.Read apID) r]
            ∧ p.OrganizationScoped = false)
    ∨ (∃ p, out.calls = [Event.mk (Call.Read apID) (.ok p)]
          ∧ p.OrganizationScoped = true
          ∧ out.err = some (organizationScopedError p.Organization.Name))
    ∨ (∃ p options err,
        out.calls
            = [Event.mk (Call.Read apID) (.ok p),
               Event.mk (Call.UpdateAllowedWorkspaces apID options) (.error err)]
          ∧ p.OrganizationScoped = false
          ∧ out.err
            = some (.wrapError ("error updating agent pool " ++ apID ++ ": " ++ err.Error) err))

/-- The options with a nil workspace list read as the empty list that is not nil. -/
def AgentPoolAllowedWorkspacesUpdateOptions.forgetNil
    (options : AgentPoolAllowedWorkspacesUpdateOptions) :
    AgentPoolAllowedWorkspacesUpdateOptions :=
  { AllowedWorkspaces := some options.AllowedWorkspaces.range }

/-- A call made, with the nil-ness of the workspace list it passed forgotten; the
identifier and the response stay as they are. -/
def Event.forgetNil (e : Event) : Event :=
  match e.call with
  | .Read _ => e
  | .UpdateAllowedWorkspaces agentPoolID options =>
    { call := .UpdateAllowedWorkspaces agentPoolID options.forgetNil, response := e.response }

/-- Two outcomes that agree on the error returned, on the resource data and on the remote
left behind, and whose calls are the same calls with the same responses up to
the nil-ness of the workspace lists passed. -/
def sameUpToNil {σ : Type} (a b : Outcome σ) : Prop :=
  a.err = b.err ∧ a.d = b.d ∧ a.remote = b.remote
    ∧ a.calls.map Event.forgetNil = b.calls.map Event.forgetNil

/-- The remote answers an `UpdateAllowedWorkspaces` call for `id` in state `s` the same way,
response and state afterwards, for the nil list and for the empty list that is
not nil. -/
def answersNilAsEmpty {σ : Type} (client : Client σ) (s : σ) (id : String) : Prop :=
  client.UpdateAllowedWorkspaces s id { AllowedWorkspaces := none }
    = client.UpdateAllowedWorkspaces s id { AllowedWorkspaces := some [] }

/-! ## The remote as a store -/

/-- Modelled from the spec: the remote API is outside the repository; this is the store
after the allowed-workspace list of every pool with identifier `id` is replaced
by `l`. -/
def storeAfter (pools : List AgentPool) (id : String) (l : Slice Workspace) :
    List AgentPool :=
  pools.map (fun q => if q.ID == id then { q with AllowedWorkspaces := l } else q)

/-- Modelled from the spec: the remote API is outside the repository; this is the remote
the round-trip properties speak of, a store of pools in which
`UpdateAllowedWorkspaces` replaces the allowed-workspace list of the pool with the
given identifier by the list of the options and `Read` returns the pool, both
reporting not-found for an identifier no pool has. -/
def storeClient : Client (List AgentPool) where
  Read := fun pools id =>
    match pools.find? (fun p => p.ID == id) with
    | some p => (.ok p, pools)
    | none => (.error .ErrResourceNotFound, pools)
  UpdateAllowedWorkspaces := fun pools id options =>
    match pools.find? (fun p => p.ID == id) with
    | some p =>
      (.ok { p with AllowedWorkspaces := options.AllowedWorkspaces },
        storeAfter pools id options.AllowedWorkspaces)
    | none => (.error .ErrResourceNotFound, pools)

/-- The options Create and Update build for a pool that is not organization-scoped, from
the list `init` each starts with. -/
def builtOptions (init : Slice Workspace) (d : ResourceData) :
    AgentPoolAllowedWorkspacesUpdateOptions :=
  if d.allowed_workspace_ids ≠ ∅ then
    { AllowedWorkspaces :=
        some ((schemaSetList d.allowed_workspace_ids).map (fun val => { ID := val })) }
  else { AllowedWorkspaces := init }

/-- What Create and Update leave on the store for a pool `p` that exists and is not
organization-scoped, given the options `o` they send. -/
def storeOutcome (pools : List AgentPool) (d : ResourceData) (p : AgentPool)
    (o : AgentPoolAllowedWorkspacesUpdateOptions) : Outcome (List AgentPool) :=
  { err := none,
    d := { Id := d.agent_pool_id, agent_pool_id := p.ID,
           allowed_workspace_ids :=
             (o.AllowedWorkspaces.range.map (fun workspace => workspace.ID)).toFinset },
    remote := storeAfter pools d.agent_pool_id o.AllowedWorkspaces,
    calls :=
      [Event.mk (Call.Read d.agent_pool_id) (.ok p),
       Event.mk (Call.UpdateAllowedWorkspaces d.agent_pool_id o)
         (.ok { p with AllowedWorkspaces := o.AllowedWorkspaces }),
       Event.mk (Call.Read d.agent_pool_id)
         (.ok { p with AllowedWorkspaces := o.AllowedWorkspaces })] }

/-! ## Concrete inputs -/

/-- A remote whose every call reports not-found. -/
def goneClient : Client Unit where
  Read := fun s _ => (.error .ErrResourceNotFound, s)
  UpdateAllowedWorkspaces := fun s _ _ => (.error .ErrResourceNotFound, s)

/-- A pool that is not organization-scoped and allows one workspace. -/
def pool1 : AgentPool :=
  { ID := "apool-1", OrganizationScoped := false, Organization := { Name := "org" },
    AllowedWorkspaces := some [{ ID := "ws-1" }] }

/-- An organization-scoped pool. -/
def pool2 : AgentPool :=
  { ID := "apool-2", OrganizationScoped := true, Organization := { Name := "org" },
    AllowedWorkspaces := none }

/-- A remote that reads `pool1` for every identifier and then loses it: every
`UpdateAllowedWorkspaces` call reports not-found. -/
def vanishingClient : Client Unit where
  Read := fun s _ => (.ok pool1, s)
  UpdateAllowedWorkspaces := fun s _ _ => (.error .ErrResourceNotFound, s)

/-- The store, keeping every list it is sent as a list that is not nil: it answers the nil
list as the empty one. -/
def canonicalStoreClient : Client (List AgentPool) where
  Read := storeClient.Read
  UpdateAllowedWorkspaces := fun pools id options =>
    storeClient.UpdateAllowedWorkspaces pools id options.forgetNil

/-- Resource data naming `pool1`, with an empty set of workspaces. -/
def dataEmpty : ResourceData :=
  { Id := "apool-1", agent_pool_id := "apool-1", allowed_workspace_ids := ∅ }

/-- Resource data naming `pool1`, with two workspaces. -/
def dataTwo : ResourceData :=
  { Id := "apool-1", agent_pool_id := "apool-1", allowed_workspace_ids := {"ws-2", "ws-3"} }

/-- Resource data naming `pool2`, not yet created. -/
def dataScoped : ResourceData :=
  { Id := "", agent_pool_id := "apool-2", allowed_workspace_ids := {"ws-2"} }

/-! ## Lemmas on the loops and on the store -/

theorem appendWorkspaces_some (l : List Workspace) (ids : List String) :
    appendWorkspaces (some l) ids = some (l ++ ids.map (fun val => { ID := val })) := by
  induction ids generalizing l with
  | nil => simp [appendWorkspaces]
  | cons x xs ih =>
    have h := ih (l ++ [{ ID := x }])
    simp only [appendWorkspaces, List.foldl_cons, Slice.append, Slice.range] at h ⊢
    simpa using h

theorem foldl_append_range (ws : List Workspace) (init : Slice String) :
    (ws.foldl (fun acc workspace => acc.append workspace.ID) init).range
      = init.range ++ ws.map (fun workspace => workspace.ID) := by
  induction ws generalizing init with
  | nil => simp
  | cons x xs ih =>
    rw [List.foldl_cons, ih]
    cases init <;> simp [Slice.append, Slice.range]

theorem collectWorkspaceIDs_range (ws : Slice Workspace) :
    (collectWorkspaceIDs ws).range = ws.range.map (fun workspace => workspace.ID) := by
  unfold collectWorkspaceIDs
  rw [foldl_append_range]
  simp [Slice.range]

theorem store_find_after_update (pools : List AgentPool) (id : String) (p : AgentPool)
    (l : Slice Workspace) (hfind : pools.find? (fun q => q.ID == id) = some p) :
    (storeAfter pools id l).find? (fun q => q.ID == id)
      = some { p with AllowedWorkspaces := l } := by
  have hp : p.ID = id := by simpa using List.find?_some hfind
  unfold storeAfter
  rw [List.find?_map]
  have hcomp : ((fun q : AgentPool => q.ID == id) ∘
      fun q => if q.ID == id then { q with AllowedWorkspaces := l } else q)
      = fun q => q.ID == id := by
    funext q
    by_cases hq : q.ID = id <;> simp [hq]
  rw [hcomp, hfind]
  simp [hp]

theorem storeClient_Read_found (pools : List AgentPool) (id : String) (p : AgentPool)
    (hfind : pools.find? (fun q => q.ID == id) = some p) :
    storeClient.Read pools id = (.ok p, pools) := by
  simp [storeClient, hfind]

theorem storeClient_Update_found (pools : List AgentPool) (id : String) (p : AgentPool)
    (options : AgentPoolAllowedWorkspacesUpdateOptions)
    (hfind : pools.find? (fun q => q.ID == id) = some p) :
    storeClient.UpdateAllowedWorkspaces pools id options
      = (.ok { p with AllowedWorkspaces := options.AllowedWorkspaces },
          storeAfter pools id options.AllowedWorkspaces) := by
  simp [storeClient, hfind]

theorem workspace_ids_of_list (S : Finset String) :
    ((schemaSetList S).map (fun val => ({ ID := val } : Workspace))).map
        (fun workspace => workspace.ID) = schemaSetList S := by
  rw [List.map_map]
  exact List.map_id _

theorem store_read_found (pools : List AgentPool) (d : ResourceData) (p : AgentPool)
    (hfind : pools.find? (fun q => q.ID == d.Id) = some p) :
    resourceTFEAgentPoolAllowedWorkspacesRead storeClient d pools
      = { err := none,
          d := { Id := d.Id, agent_pool_id := p.ID,
                 allowed_workspace_ids :=
                   (p.AllowedWorkspaces.range.map (fun workspace => workspace.ID)).toFinset },
          remote := pools,
          calls := [Event.mk (Call.Read d.Id) (.ok p)] } := by
  simp [resourceTFEAgentPoolAllowedWorkspacesRead, storeClient_Read_found pools d.Id p hfind,
    ResourceData.Set_allowed_workspace_ids, ResourceData.Set_agent_pool_id,
    collectWorkspaceIDs_range]

theorem builtOptions_ids (init : Slice Workspace) (d : ResourceData)
    (hinit : init.range = []) :
    ((builtOptions init d).AllowedWorkspaces.range.map
        (fun workspace => workspace.ID)).toFinset = d.allowed_workspace_ids := by
  unfold builtOptions
  by_cases h : d.allowed_workspace_ids = ∅
  · simp [h, hinit]
  · simp only [ne_eq, h, not_false_eq_true, if_true, Slice.range]
    rw [workspace_ids_of_list]
    exact Finset.sort_toFinset _ _

theorem builtOptions_eq (init : Slice Workspace) (d : ResourceData) :
    (if (d.GetOk_allowed_workspace_ids).2 = true then
        ({ AllowedWorkspaces :=
            appendWorkspaces (some []) (schemaSetList (d.GetOk_allowed_workspace_ids).1) } :
          AgentPoolAllowedWorkspacesUpdateOptions)
      else { AllowedWorkspaces := init }) = builtOptions init d := by
  unfold builtOptions ResourceData.GetOk_allowed_workspace_ids
  by_cases h : d.allowed_workspace_ids = ∅ <;> simp [h, appendWorkspaces_some]

theorem store_create_found (pools : List AgentPool) (d : ResourceData) (p : AgentPool)
    (hfind : pools.find? (fun q => q.ID == d.agent_pool_id) = some p)
    (hscoped : p.OrganizationScoped = false) :
    resourceTFEAgentPoolAllowedWorkspacesCreate storeClient d pools
      = storeOutcome pools d p (builtOptions none d) := by
  have hread := store_read_found
    (storeAfter pools d.agent_pool_id (builtOptions none d).AllowedWorkspaces)
    (d.SetId d.agent_pool_id) _
    (store_find_after_update pools d.agent_pool_id p _ hfind)
  unfold resourceTFEAgentPoolAllowedWorkspacesCreate
  simp only [ResourceData.Get_agent_pool_id, builtOptions_eq,
    storeClient_Read_found pools d.agent_pool_id p hfind,
    storeClient_Update_found pools d.agent_pool_id p _ hfind, hscoped, hread]
  simp [storeOutcome, ResourceData.SetId, hscoped]

theorem store_update_found (pools : List AgentPool) (d : ResourceData) (p : AgentPool)
    (hfind : pools.find? (fun q => q.ID == d.agent_pool_id) = some p)
    (hscoped : p.OrganizationScoped = false) :
    resourceTFEAgentPoolAllowedWorkspacesUpdate storeClient d pools
      = storeOutcome pools d p (builtOptions (some []) d) := by
  have hread := store_read_found
    (storeAfter pools d.agent_pool_id (builtOptions (some []) d).AllowedWorkspaces)
    (d.SetId d.agent_pool_id) _
    (store_find_after_update pools d.agent_pool_id p _ hfind)
  unfold resourceTFEAgentPoolAllowedWorkspacesUpdate
  simp only [ResourceData.Get_agent_pool_id, builtOptions_eq,
    storeClient_Read_found pools d.agent_pool_id p hfind,
    storeClient_Update_found pools d.agent_pool_id p _ hfind, hscoped, hread]
  simp [storeOutcome, ResourceData.SetId, hscoped]

theorem store_read_after (pools : List AgentPool) (d : ResourceData) (p : AgentPool)
    (o : AgentPoolAllowedWorkspacesUpdateOptions)
    (hfind : pools.find? (fun q => q.ID == d.agent_pool_id) = some p) :
    (resourceTFEAgentPoolAllowedWorkspacesRead storeClient (storeOutcome pools d p o).d
        (storeOutcome pools d p o).remote).err = none
      ∧ (resourceTFEAgentPoolAllowedWorkspacesRead storeClient (storeOutcome pools d p o).d
        (storeOutcome pools d p o).remote).d.allowed_workspace_ids
        = (o.AllowedWorkspaces.range.map (fun workspace => workspace.ID)).toFinset := by
  have hread := store_read_found (storeOutcome pools d p o).remote (storeOutcome pools d p o).d
    _ (store_find_after_update pools d.agent_pool_id p o.AllowedWorkspaces hfind)
  rw [hread]
  exact ⟨rfl, rfl⟩

/-! ## Lemmas on the calls and on not-found -/

theorem read_calls_length {σ : Type} (client : Client σ) (d : ResourceData) (s : σ) :
    (resourceTFEAgentPoolAllowedWorkspacesRead client d s).calls.length = 1 := by
  unfold resourceTFEAgentPoolAllowedWorkspacesRead
  simp only []
  split
  · split <;> rfl
  · rfl

theorem read_recovers {σ : Type} (client : Client σ) (d : ResourceData) (s : σ)
    (h : readFailuresAreNotFound (resourceTFEAgentPoolAllowedWorkspacesRead client d s).calls) :
    (resourceTFEAgentPoolAllowedWorkspacesRead client d s).err = none := by
  unfold resourceTFEAgentPoolAllowedWorkspacesRead at h ⊢
  simp only [] at h ⊢
  split at h
  · next err herr =>
    simp only [herr]
    split
    · rfl
    · next hnf =>
      rw [if_neg hnf] at h
      have := h _ (List.mem_singleton.2 rfl) rfl (by simp [herr, Response.failed])
      simp [herr, Response.notFound] at this
      exact absurd this hnf
  · next agentPool hok =>
    simp [hok]

theorem read_calls_eq {σ : Type} (client : Client σ) (d : ResourceData) (s : σ) :
    (resourceTFEAgentPoolAllowedWorkspacesRead client d s).calls = [Event.mk (Call.Read d.Id) (client.Read s d.Id).1] := by
  unfold resourceTFEAgentPoolAllowedWorkspacesRead
  simp only []
  split
  · split <;> rfl
  · rfl

theorem create_recovers {σ : Type} (client : Client σ) (d : ResourceData) (s : σ)
    (h : readFailuresAreNotFound (resourceTFEAgentPoolAllowedWorkspacesCreate client d s).calls) :
    endsRecovered (resourceTFEAgentPoolAllowedWorkspacesCreate client d s) d.agent_pool_id := by
  unfold resourceTFEAgentPoolAllowedWorkspacesCreate at h ⊢
  simp only [ResourceData.Get_agent_pool_id] at h ⊢
  split at h
  · next err herr =>
    simp only [herr]
    split
    · next hnf => exact Or.inl ⟨rfl, err, rfl, hnf⟩
    · next hnf =>
      rw [if_neg hnf] at h
      have := h _ (List.mem_singleton.2 rfl) rfl (by simp [herr, Response.failed])
      simp [herr, Response.notFound] at this
      exact absurd this hnf
  · next agentPool hok =>
    simp only [hok]
    cases hsc : agentPool.OrganizationScoped
    · simp only [hsc, Bool.false_eq_true, if_false, Bool.not_false, if_true] at h ⊢
      split at h
      · next err herr =>
        simp only [herr]
        exact Or.inr (Or.inr (Or.inr ⟨agentPool, _, err, rfl, hsc, rfl⟩))
      · next q hq =>
        simp only [hq]
        refine Or.inr (Or.inl ⟨read_recovers client _ _ ?_, ?_⟩)
        · intro e he
          exact h e (by simp [he])
        · simp only [read_calls_eq, ResourceData.SetId]
          exact ⟨agentPool, _, q, _, rfl, hsc⟩
    · simp only [if_true]
      exact Or.inr (Or.inr (Or.inl ⟨agentPool, rfl, hsc, rfl⟩))

theorem update_recovers {σ : Type} (client : Client σ) (d : ResourceData) (s : σ)
    (h : readFailuresAreNotFound (resourceTFEAgentPoolAllowedWorkspacesUpdate client d s).calls) :
    endsRecovered (resourceTFEAgentPoolAllowedWorkspacesUpdate client d s) d.agent_pool_id := by
  unfold resourceTFEAgentPoolAllowedWorkspacesUpdate at h ⊢
  simp only [ResourceData.Get_agent_pool_id] at h ⊢
  split at h
  · next err herr =>
    simp only [herr]
    split
    · next hnf => exact Or.inl ⟨rfl, err, rfl, hnf⟩
    · next hnf =>
      rw [if_neg hnf] at h
      have := h _ (List.mem_singleton.2 rfl) rfl (by simp [herr, Response.failed])
      simp [herr, Response.notFound] at this
      exact absurd this hnf
  · next agentPool hok =>
    simp only [hok]
    cases hsc : agentPool.OrganizationScoped
    · simp only [hsc, Bool.false_eq_true, if_false, Bool.not_false, if_true] at h ⊢
      split at h
      · next err herr =>
        simp only [herr]
        exact Or.inr (Or.inr (Or.inr ⟨agentPool, _, err, rfl, hsc, rfl⟩))
      · next q hq =>
        simp only [hq]
        refine Or.inr (Or.inl ⟨read_recovers client _ _ ?_, ?_⟩)
        · intro e he
          exact h e (by simp [he])
        · simp only [read_calls_eq, ResourceData.SetId]
          exact ⟨agentPool, _, q, _, rfl, hsc⟩
    · simp only [if_true]
      exact Or.inr (Or.inr (Or.inl ⟨agentPool, rfl, hsc, rfl⟩))

/-! ## Theorems -/

/-- C1: when the pool read succeeds with an organization-scoped pool, Create and Update
both return the precondition error naming the pool's organization, and the
only remote call either makes is that pool read: no `UpdateAllowedWorkspaces`
call is issued. -/
theorem organization_scoped_rejected {σ : Type} (client : Client σ) (d : ResourceData)
    (s s1 : σ) (agentPool : AgentPool)
    (hread : client.Read s d.agent_pool_id = (.ok agentPool, s1))
    (hscoped : agentPool.OrganizationScoped = true) :
    (resourceTFEAgentPoolAllowedWorkspacesCreate client d s).err
        = some (organizationScopedError agentPool.Organization.Name)
      ∧ (∀ e ∈ (resourceTFEAgentPoolAllowedWorkspacesCreate client d s).calls,
          e.call.isUpdateAllowedWorkspaces = false)
      ∧ (resourceTFEAgentPoolAllowedWorkspacesUpdate client d s).err
        = some (organizationScopedError agentPool.Organization.Name)
      ∧ (∀ e ∈ (resourceTFEAgentPoolAllowedWorkspacesUpdate client d s).calls,
          e.call.isUpdateAllowedWorkspaces = false) := by
  simp [resourceTFEAgentPoolAllowedWorkspacesCreate,
    resourceTFEAgentPoolAllowedWorkspacesUpdate, ResourceData.Get_agent_pool_id, hread,
    hscoped, organizationScopedError, Call.isUpdateAllowedWorkspaces]

/-- Witness of C1 on the store holding the organization-scoped `pool2`. -/
theorem organization_scoped_rejected_witness :
    (resourceTFEAgentPoolAllowedWorkspacesCreate storeClient dataScoped [pool2]).err
        = some (organizationScopedError "org")
      ∧ (∀ e ∈ (resourceTFEAgentPoolAllowedWorkspacesCreate storeClient dataScoped [pool2]).calls,
          e.call.isUpdateAllowedWorkspaces = false)
      ∧ (resourceTFEAgentPoolAllowedWorkspacesUpdate storeClient dataScoped [pool2]).err
        = some (organizationScopedError "org")
      ∧ (∀ e ∈ (resourceTFEAgentPoolAllowedWorkspacesUpdate storeClient dataScoped [pool2]).calls,
          e.call.isUpdateAllowedWorkspaces = false) :=
  organization_scoped_rejected storeClient dataScoped [pool2] [pool2] pool2 (by decide) rfl

/-- C3: Delete makes exactly one remote call, whatever the resource data and the remote:
an `UpdateAllowedWorkspaces` call for the data's `agent_pool_id` whose workspace
list is empty and not nil.  No pool read comes before it. -/
theorem delete_issues_one_empty_update {σ : Type} (client : Client σ) (d : ResourceData)
    (s : σ) :
    ∃ options : AgentPoolAllowedWorkspacesUpdateOptions,
      (resourceTFEAgentPoolAllowedWorkspacesDelete client d s).calls
        = [Event.mk (Call.UpdateAllowedWorkspaces d.agent_pool_id options)
            (client.UpdateAllowedWorkspaces s d.agent_pool_id options).1]
      ∧ options.AllowedWorkspaces = some []
      ∧ options.AllowedWorkspaces ≠ none
      ∧ Slice.len options.AllowedWorkspaces = 0 := by
  refine ⟨{ AllowedWorkspaces := some [] }, ?_, rfl, by simp, rfl⟩
  unfold resourceTFEAgentPoolAllowedWorkspacesDelete
  simp only [ResourceData.Get_agent_pool_id]
  split <;> rfl

/-- C4: when the pool read for the data's identifier reports not-found, Read returns no
error and the identifier afterwards is the empty string. -/
theorem read_not_found_clears_id {σ : Type} (client : Client σ) (d : ResourceData)
    (s s1 : σ) (err : GoError)
    (hread : client.Read s d.Id = (.error err, s1))
    (hnf : err.isErrResourceNotFound = true) :
    (resourceTFEAgentPoolAllowedWorkspacesRead client d s).err = none
      ∧ (resourceTFEAgentPoolAllowedWorkspacesRead client d s).d.Id = "" := by
  simp [resourceTFEAgentPoolAllowedWorkspacesRead, hread, hnf, ResourceData.SetId]

/-- Witness of C4 on the remote that has no pool. -/
theorem read_not_found_clears_id_witness :
    (resourceTFEAgentPoolAllowedWorkspacesRead goneClient dataTwo ()).err = none
      ∧ (resourceTFEAgentPoolAllowedWorkspacesRead goneClient dataTwo ()).d.Id = "" :=
  read_not_found_clears_id goneClient dataTwo () () .ErrResourceNotFound rfl rfl

/-- C5: when the identifier is unset and the pool read for `agent_pool_id` reports
not-found, Create returns no error, makes no `UpdateAllowedWorkspaces` call, and
leaves the identifier unset (and the rest of the data as it was). -/
theorem create_not_found_is_noop {σ : Type} (client : Client σ) (d : ResourceData)
    (s s1 : σ) (err : GoError)
    (hid : d.Id = "")
    (hread : client.Read s d.agent_pool_id = (.error err, s1))
    (hnf : err.isErrResourceNotFound = true) :
    (resourceTFEAgentPoolAllowedWorkspacesCreate client d s).err = none
      ∧ (∀ e ∈ (resourceTFEAgentPoolAllowedWorkspacesCreate client d s).calls,
          e.call.isUpdateAllowedWorkspaces = false)
      ∧ (resourceTFEAgentPoolAllowedWorkspacesCreate client d s).d.Id = ""
      ∧ (resourceTFEAgentPoolAllowedWorkspacesCreate client d s).d = d := by
  simp [resourceTFEAgentPoolAllowedWorkspacesCreate, ResourceData.Get_agent_pool_id, hread,
    hnf, hid, Call.isUpdateAllowedWorkspaces]

/-- Witness of C5 on the remote that has no pool. -/
theorem create_not_found_is_noop_witness :
    (resourceTFEAgentPoolAllowedWorkspacesCreate goneClient dataScoped ()).err = none
      ∧ (∀ e ∈ (resourceTFEAgentPoolAllowedWorkspacesCreate goneClient dataScoped ()).calls,
          e.call.isUpdateAllowedWorkspaces = false)
      ∧ (resourceTFEAgentPoolAllowedWorkspacesCreate goneClient dataScoped ()).d.Id = ""
      ∧ (resourceTFEAgentPoolAllowedWorkspacesCreate goneClient dataScoped ()).d = dataScoped :=
  create_not_found_is_noop goneClient dataScoped () () .ErrResourceNotFound rfl rfl rfl

/-- C2: on the store, for a pool that exists and is not organization-scoped and for every
set of workspace identifiers in the resource data, Create succeeds and a Read
right after it succeeds and leaves `allowed_workspace_ids` equal to the submitted
set; likewise Update. -/
theorem create_update_read_round_trip (pools : List AgentPool) (d : ResourceData)
    (p : AgentPool)
    (hfind : pools.find? (fun q => q.ID == d.agent_pool_id) = some p)
    (hscoped : p.OrganizationScoped = false) :
    (((resourceTFEAgentPoolAllowedWorkspacesCreate storeClient d pools).err = none
      ∧ (resourceTFEAgentPoolAllowedWorkspacesRead storeClient
          (resourceTFEAgentPoolAllowedWorkspacesCreate storeClient d pools).d
          (resourceTFEAgentPoolAllowedWorkspacesCreate storeClient d pools).remote).err = none
      ∧ (resourceTFEAgentPoolAllowedWorkspacesRead storeClient
          (resourceTFEAgentPoolAllowedWorkspacesCreate storeClient d pools).d
          (resourceTFEAgentPoolAllowedWorkspacesCreate storeClient d pools).remote).d.allowed_workspace_ids
        = d.allowed_workspace_ids))
    ∧ ((resourceTFEAgentPoolAllowedWorkspacesUpdate storeClient d pools).err = none
      ∧ (resourceTFEAgentPoolAllowedWorkspacesRead storeClient
          (resourceTFEAgentPoolAllowedWorkspacesUpdate storeClient d pools).d
          (resourceTFEAgentPoolAllowedWorkspacesUpdate storeClient d pools).remote).err = none
      ∧ (resourceTFEAgentPoolAllowedWorkspacesRead storeClient
          (resourceTFEAgentPoolAllowedWorkspacesUpdate storeClient d pools).d
          (resourceTFEAgentPoolAllowedWorkspacesUpdate storeClient d pools).remote).d.allowed_workspace_ids
        = d.allowed_workspace_ids) := by
  rw [store_create_found pools d p hfind hscoped, store_update_found pools d p hfind hscoped]
  have hc := store_read_after pools d p (builtOptions none d) hfind
  have hu := store_read_after pools d p (builtOptions (some []) d) hfind
  rw [builtOptions_ids none d rfl] at hc
  rw [builtOptions_ids (some []) d rfl] at hu
  exact ⟨⟨rfl, hc.1, hc.2⟩, ⟨rfl, hu.1, hu.2⟩⟩

/-- Witness of C2: two workspaces submitted for `pool1`, which allowed another one. -/
theorem create_update_read_round_trip_witness :
    (((resourceTFEAgentPoolAllowedWorkspacesCreate storeClient dataTwo [pool1]).err = none
      ∧ (resourceTFEAgentPoolAllowedWorkspacesRead storeClient
          (resourceTFEAgentPoolAllowedWorkspacesCreate storeClient dataTwo [pool1]).d
          (resourceTFEAgentPoolAllowedWorkspacesCreate storeClient dataTwo [pool1]).remote).err = none
      ∧ (resourceTFEAgentPoolAllowedWorkspacesRead storeClient
          (resourceTFEAgentPoolAllowedWorkspacesCreate storeClient dataTwo [pool1]).d
          (resourceTFEAgentPoolAllowedWorkspacesCreate storeClient dataTwo [pool1]).remote).d.allowed_workspace_ids
        = dataTwo.allowed_workspace_ids))
    ∧ ((resourceTFEAgentPoolAllowedWorkspacesUpdate storeClient dataTwo [pool1]).err = none
      ∧ (resourceTFEAgentPoolAllowedWorkspacesRead storeClient
          (resourceTFEAgentPoolAllowedWorkspacesUpdate storeClient dataTwo [pool1]).d
          (resourceTFEAgentPoolAllowedWorkspacesUpdate storeClient dataTwo [pool1]).remote).err = none
      ∧ (resourceTFEAgentPoolAllowedWorkspacesRead storeClient
          (resourceTFEAgentPoolAllowedWorkspacesUpdate storeClient dataTwo [pool1]).d
          (resourceTFEAgentPoolAllowedWorkspacesUpdate storeClient dataTwo [pool1]).remote).d.allowed_workspace_ids
        = dataTwo.allowed_workspace_ids) :=
  create_update_read_round_trip [pool1] dataTwo pool1 (by decide) rfl

/-- C6: on the store, for a pool that exists, is not organization-scoped and allows at
least one workspace, Update with an empty `allowed_workspace_ids` set sends an
empty list that is not nil to `UpdateAllowedWorkspaces` (between the pool read and
the re-read), succeeds, and a Read after it yields the empty set, which is not
the set the pool allowed before. -/
theorem update_empty_set_clears (pools : List AgentPool) (d : ResourceData) (p : AgentPool)
    (hfind : pools.find? (fun q => q.ID == d.agent_pool_id) = some p)
    (hscoped : p.OrganizationScoped = false)
    (hprev : p.AllowedWorkspaces.range ≠ [])
    (hempty : d.allowed_workspace_ids = ∅) :
    ((resourceTFEAgentPoolAllowedWorkspacesUpdate storeClient d pools).calls.map (fun e => e.call)
        = [Call.Read d.agent_pool_id,
           Call.UpdateAllowedWorkspaces d.agent_pool_id { AllowedWorkspaces := some [] },
           Call.Read d.agent_pool_id])
      ∧ (resourceTFEAgentPoolAllowedWorkspacesUpdate storeClient d pools).err = none
      ∧ (resourceTFEAgentPoolAllowedWorkspacesRead storeClient
          (resourceTFEAgentPoolAllowedWorkspacesUpdate storeClient d pools).d
          (resourceTFEAgentPoolAllowedWorkspacesUpdate storeClient d pools).remote).err = none
      ∧ (resourceTFEAgentPoolAllowedWorkspacesRead storeClient
          (resourceTFEAgentPoolAllowedWorkspacesUpdate storeClient d pools).d
          (resourceTFEAgentPoolAllowedWorkspacesUpdate storeClient d pools).remote).d.allowed_workspace_ids = ∅
      ∧ (resourceTFEAgentPoolAllowedWorkspacesRead storeClient
          (resourceTFEAgentPoolAllowedWorkspacesUpdate storeClient d pools).d
          (resourceTFEAgentPoolAllowedWorkspacesUpdate storeClient d pools).remote).d.allowed_workspace_ids
        ≠ (p.AllowedWorkspaces.range.map (fun workspace => workspace.ID)).toFinset := by
  rw [store_update_found pools d p hfind hscoped]
  have hu := store_read_after pools d p (builtOptions (some []) d) hfind
  rw [builtOptions_ids (some []) d rfl] at hu
  have hopt : builtOptions (some []) d = { AllowedWorkspaces := some [] } := by
    simp [builtOptions, hempty]
  refine ⟨?_, rfl, hu.1, hu.2.trans hempty, ?_⟩
  · simp [storeOutcome, hopt]
  · rw [hu.2, hempty]
    intro h
    apply hprev
    have h2 := (List.toFinset_eq_empty_iff _).1 h.symm
    simpa using h2

/-- Witness of C6: `pool1` allows one workspace and the resource data has none. -/
theorem update_empty_set_clears_witness :
    ((resourceTFEAgentPoolAllowedWorkspacesUpdate storeClient dataEmpty [pool1]).calls.map (fun e => e.call)
        = [Call.Read "apool-1",
           Call.UpdateAllowedWorkspaces "apool-1" { AllowedWorkspaces := some [] },
           Call.Read "apool-1"])
      ∧ (resourceTFEAgentPoolAllowedWorkspacesUpdate storeClient dataEmpty [pool1]).err = none
      ∧ (resourceTFEAgentPoolAllowedWorkspacesRead storeClient
          (resourceTFEAgentPoolAllowedWorkspacesUpdate storeClient dataEmpty [pool1]).d
          (resourceTFEAgentPoolAllowedWorkspacesUpdate storeClient dataEmpty [pool1]).remote).err = none
      ∧ (resourceTFEAgentPoolAllowedWorkspacesRead storeClient
          (resourceTFEAgentPoolAllowedWorkspacesUpdate storeClient dataEmpty [pool1]).d
          (resourceTFEAgentPoolAllowedWorkspacesUpdate storeClient dataEmpty [pool1]).remote).d.allowed_workspace_ids = ∅
      ∧ (resourceTFEAgentPoolAllowedWorkspacesRead storeClient
          (resourceTFEAgentPoolAllowedWorkspacesUpdate storeClient dataEmpty [pool1]).d
          (resourceTFEAgentPoolAllowedWorkspacesUpdate storeClient dataEmpty [pool1]).remote).d.allowed_workspace_ids
        ≠ (pool1.AllowedWorkspaces.range.map (fun workspace => workspace.ID)).toFinset :=
  update_empty_set_clears [pool1] dataEmpty pool1 (by decide) rfl (by decide) rfl

/-- C7 as stated fails: Create for `pool1` on the store makes three remote calls, the pool
read, the `UpdateAllowedWorkspaces` call and the pool read of the re-read. -/
theorem create_makes_three_calls :
    ¬ ((resourceTFEAgentPoolAllowedWorkspacesCreate storeClient dataEmpty [pool1]).calls.length ≤ 2) := by
  decide

/-- C7, amended: whatever the resource data and the remote, Create and Update each make
at most three remote calls, and Delete makes exactly one. -/
theorem at_most_three_remote_calls {σ : Type} (client : Client σ) (d : ResourceData)
    (s : σ) :
    (resourceTFEAgentPoolAllowedWorkspacesCreate client d s).calls.length ≤ 3
      ∧ (resourceTFEAgentPoolAllowedWorkspacesUpdate client d s).calls.length ≤ 3
      ∧ (resourceTFEAgentPoolAllowedWorkspacesDelete client d s).calls.length = 1 := by
  refine ⟨?_, ?_, ?_⟩
  · unfold resourceTFEAgentPoolAllowedWorkspacesCreate
    simp only []
    split
    · split <;> simp
    · split
      · simp
      · split
        · split
          · simp
          · simp [read_calls_length]
        · simp [read_calls_length]
  · unfold resourceTFEAgentPoolAllowedWorkspacesUpdate
    simp only []
    split
    · split <;> simp
    · split
      · simp
      · split
        · split
          · simp
          · simp [read_calls_length]
        · simp [read_calls_length]
  · unfold resourceTFEAgentPoolAllowedWorkspacesDelete
    simp only []
    split <;> rfl

/-- C8 as stated fails: the remote reads `pool1` and then answers `UpdateAllowedWorkspaces`
with not-found; the only failing call of Create fails with not-found, and Create
returns an error (which wraps it). -/
theorem create_returns_update_not_found :
    ¬ (failuresAreNotFound (resourceTFEAgentPoolAllowedWorkspacesCreate vanishingClient dataEmpty ()).calls
        → (resourceTFEAgentPoolAllowedWorkspacesCreate vanishingClient dataEmpty ()).err = none) := by
  intro h
  have hcalls : failuresAreNotFound (resourceTFEAgentPoolAllowedWorkspacesCreate vanishingClient dataEmpty ()).calls := by
    unfold failuresAreNotFound
    decide
  have herr := h hcalls
  revert herr
  decide

/-- C8, amended: a not-found answer to a pool read is never returned as an error.  If every
pool read that fails during the operation fails with not-found, Read returns
success, and Create and Update end in one of four ways: success after a
not-found pool read, with no further call; success after the pool read reported
a pool that is not organization-scoped, the `UpdateAllowedWorkspaces` call
succeeded and the pool was read again; the precondition error naming the
organization of the pool that the pool read reported as organization-scoped,
with no further call; or the failure of the `UpdateAllowedWorkspaces` call,
not-found or not, returned wrapped, with no further call. -/
theorem pool_read_not_found_is_recovered {σ : Type} (client : Client σ) (d : ResourceData)
    (s : σ) :
    (readFailuresAreNotFound (resourceTFEAgentPoolAllowedWorkspacesRead client d s).calls
        → (resourceTFEAgentPoolAllowedWorkspacesRead client d s).err = none)
      ∧ (readFailuresAreNotFound (resourceTFEAgentPoolAllowedWorkspacesCreate client d s).calls
        → endsRecovered (resourceTFEAgentPoolAllowedWorkspacesCreate client d s) d.agent_pool_id)
      ∧ (readFailuresAreNotFound (resourceTFEAgentPoolAllowedWorkspacesUpdate client d s).calls
        → endsRecovered (resourceTFEAgentPoolAllowedWorkspacesUpdate client d s) d.agent_pool_id) :=
  ⟨read_recovers client d s, create_recovers client d s, update_recovers client d s⟩

/-- Witness of C8, amended, on the remote that has no pool: all three operations read, get
not-found, and return success. -/
theorem pool_read_not_found_is_recovered_witness :
    (readFailuresAreNotFound (resourceTFEAgentPoolAllowedWorkspacesRead goneClient dataEmpty ()).calls
        ∧ (resourceTFEAgentPoolAllowedWorkspacesRead goneClient dataEmpty ()).err = none)
      ∧ (readFailuresAreNotFound (resourceTFEAgentPoolAllowedWorkspacesCreate goneClient dataEmpty ()).calls
        ∧ endsRecovered (resourceTFEAgentPoolAllowedWorkspacesCreate goneClient dataEmpty ()) "apool-1")
      ∧ (readFailuresAreNotFound (resourceTFEAgentPoolAllowedWorkspacesUpdate goneClient dataEmpty ()).calls
        ∧ endsRecovered (resourceTFEAgentPoolAllowedWorkspacesUpdate goneClient dataEmpty ()) "apool-1") :=
  have hr : readFailuresAreNotFound (resourceTFEAgentPoolAllowedWorkspacesRead goneClient dataEmpty ()).calls := by
    unfold readFailuresAreNotFound
    decide
  have hc : readFailuresAreNotFound (resourceTFEAgentPoolAllowedWorkspacesCreate goneClient dataEmpty ()).calls := by
    unfold readFailuresAreNotFound
    decide
  have hu : readFailuresAreNotFound (resourceTFEAgentPoolAllowedWorkspacesUpdate goneClient dataEmpty ()).calls := by
    unfold readFailuresAreNotFound
    decide
  ⟨⟨hr, (pool_read_not_found_is_recovered goneClient dataEmpty ()).1 hr⟩,
    ⟨hc, (pool_read_not_found_is_recovered goneClient dataEmpty ()).2.1 hc⟩,
    ⟨hu, (pool_read_not_found_is_recovered goneClient dataEmpty ()).2.2 hu⟩⟩

/-- C9 as stated fails: with an empty `allowed_workspace_ids` set and `pool1` on the store,
Create passes the nil list to `UpdateAllowedWorkspaces` and Update passes an
empty list that is not nil, so the two do not issue the same calls. -/
theorem update_differs_from_create_on_empty_set :
    (resourceTFEAgentPoolAllowedWorkspacesCreate storeClient dataEmpty [pool1]).calls.map (fun e => e.call)
        = [Call.Read "apool-1",
           Call.UpdateAllowedWorkspaces "apool-1" { AllowedWorkspaces := none },
           Call.Read "apool-1"]
      ∧ (resourceTFEAgentPoolAllowedWorkspacesUpdate storeClient dataEmpty [pool1]).calls.map (fun e => e.call)
        = [Call.Read "apool-1",
           Call.UpdateAllowedWorkspaces "apool-1" { AllowedWorkspaces := some [] },
           Call.Read "apool-1"]
      ∧ ¬ (resourceTFEAgentPoolAllowedWorkspacesUpdate storeClient dataEmpty [pool1]
            = resourceTFEAgentPoolAllowedWorkspacesCreate storeClient dataEmpty [pool1]) := by
  refine ⟨by decide, by decide, ?_⟩
  intro h
  have hcalls := congrArg (fun out => out.calls.map (fun e => e.call)) h
  revert hcalls
  decide

/-- C9, amended: Update is equivalent to Create up to the nil-ness of an empty workspace
list.  For every resource data and every remote:

* when the `allowed_workspace_ids` set is not empty, or the pool read fails or
  reports an organization-scoped pool, Update and Create make the same calls
  with the same arguments, return the same result and leave the same resource
  data and remote;
* when the set is empty and the pool read reports a pool that is not
  organization-scoped, the second call of both is an `UpdateAllowedWorkspaces`
  call for the same pool with a list of length 0, the nil list from Create and
  the empty list that is not nil from Update;
* whenever the remote answers that call the same way for the nil and for the
  empty list, Update and Create return the same result, leave the same
  resource data and the same remote, and make the same calls with the same
  responses up to that nil-ness. -/
theorem update_equals_create_up_to_nil {σ : Type} (client : Client σ) (d : ResourceData)
    (s : σ) :
    ((d.allowed_workspace_ids ≠ ∅
        ∨ ¬ ∃ p, (client.Read s d.agent_pool_id).1 = Response.ok p
            ∧ p.OrganizationScoped = false)
      → resourceTFEAgentPoolAllowedWorkspacesUpdate client d s = resourceTFEAgentPoolAllowedWorkspacesCreate client d s)
    ∧ (d.allowed_workspace_ids = ∅ →
        ∀ p, (client.Read s d.agent_pool_id).1 = Response.ok p →
          p.OrganizationScoped = false →
          (resourceTFEAgentPoolAllowedWorkspacesCreate client d s).calls.take 2
              = [Event.mk (Call.Read d.agent_pool_id) (.ok p),
                 Event.mk
                   (Call.UpdateAllowedWorkspaces d.agent_pool_id { AllowedWorkspaces := none })
                   (client.UpdateAllowedWorkspaces (client.Read s d.agent_pool_id).2
                     d.agent_pool_id { AllowedWorkspaces := none }).1]
            ∧ (resourceTFEAgentPoolAllowedWorkspacesUpdate client d s).calls.take 2
              = [Event.mk (Call.Read d.agent_pool_id) (.ok p),
                 Event.mk
                   (Call.UpdateAllowedWorkspaces d.agent_pool_id
                     { AllowedWorkspaces := some [] })
                   (client.UpdateAllowedWorkspaces (client.Read s d.agent_pool_id).2
                     d.agent_pool_id { AllowedWorkspaces := some [] }).1])
    ∧ (answersNilAsEmpty client (client.Read s d.agent_pool_id).2 d.agent_pool_id
      → sameUpToNil (resourceTFEAgentPoolAllowedWorkspacesUpdate client d s) (resourceTFEAgentPoolAllowedWorkspacesCreate client d s)) := by
  have hA : (d.allowed_workspace_ids ≠ ∅
        ∨ ¬ ∃ p, (client.Read s d.agent_pool_id).1 = Response.ok p
            ∧ p.OrganizationScoped = false)
      → resourceTFEAgentPoolAllowedWorkspacesUpdate client d s = resourceTFEAgentPoolAllowedWorkspacesCreate client d s := by
    intro h
    unfold resourceTFEAgentPoolAllowedWorkspacesUpdate resourceTFEAgentPoolAllowedWorkspacesCreate
    simp only [ResourceData.Get_agent_pool_id]
    cases hr : (client.Read s d.agent_pool_id).1 with
    | error err => rfl
    | ok p =>
      cases hsc : p.OrganizationScoped with
      | true => simp [hsc]
      | false =>
        have hne : d.allowed_workspace_ids ≠ ∅ := by
          rcases h with h | h
          · exact h
          · exact absurd ⟨p, hr, hsc⟩ h
        simp [hsc, ResourceData.GetOk_allowed_workspace_ids, hne]
  refine ⟨hA, ?_, ?_⟩
  · intro hempty p hr hsc
    constructor
    · unfold resourceTFEAgentPoolAllowedWorkspacesCreate
      simp only [ResourceData.Get_agent_pool_id, ResourceData.GetOk_allowed_workspace_ids,
        hr, hsc, hempty]
      simp only [ne_eq, not_true_eq_false, decide_False, Bool.false_eq_true, if_false,
        Bool.not_false, if_true]
      split <;> simp
    · unfold resourceTFEAgentPoolAllowedWorkspacesUpdate
      simp only [ResourceData.Get_agent_pool_id, ResourceData.GetOk_allowed_workspace_ids,
        hr, hsc, hempty]
      simp only [ne_eq, not_true_eq_false, decide_False, Bool.false_eq_true, if_false,
        Bool.not_false, if_true]
      split <;> simp
  · intro hnil
    by_cases h : d.allowed_workspace_ids ≠ ∅
        ∨ ¬ ∃ p, (client.Read s d.agent_pool_id).1 = Response.ok p
            ∧ p.OrganizationScoped = false
    · rw [hA h]
      exact ⟨rfl, rfl, rfl, rfl⟩
    · simp only [not_or, not_not, ne_eq] at h
      obtain ⟨hempty, p, hr, hsc⟩ := h
      unfold answersNilAsEmpty at hnil
      unfold sameUpToNil resourceTFEAgentPoolAllowedWorkspacesUpdate resourceTFEAgentPoolAllowedWorkspacesCreate
      simp only [ResourceData.Get_agent_pool_id, ResourceData.GetOk_allowed_workspace_ids,
        hr, hsc, hempty]
      simp only [ne_eq, not_true_eq_false, decide_False, Bool.false_eq_true, if_false,
        Bool.not_false, if_true]
      rw [hnil]
      split <;>
        simp [Event.forgetNil, AgentPoolAllowedWorkspacesUpdateOptions.forgetNil, Slice.range]

/-- Witness of C9, amended: two workspaces submitted for `pool1` on the store; no workspace
submitted for `pool1` on the store; and no workspace submitted for `pool1` on the
store that answers the nil list as the empty one. -/
theorem update_equals_create_up_to_nil_witness :
    (resourceTFEAgentPoolAllowedWorkspacesUpdate storeClient dataTwo [pool1] = resourceTFEAgentPoolAllowedWorkspacesCreate storeClient dataTwo [pool1])
    ∧ ((resourceTFEAgentPoolAllowedWorkspacesCreate storeClient dataEmpty [pool1]).calls.take 2
          = [Event.mk (Call.Read "apool-1") (.ok pool1),
             Event.mk (Call.UpdateAllowedWorkspaces "apool-1" { AllowedWorkspaces := none })
               (.ok { pool1 with AllowedWorkspaces := none })]
        ∧ (resourceTFEAgentPoolAllowedWorkspacesUpdate storeClient dataEmpty [pool1]).calls.take 2
          = [Event.mk (Call.Read "apool-1") (.ok pool1),
             Event.mk (Call.UpdateAllowedWorkspaces "apool-1" { AllowedWorkspaces := some [] })
               (.ok { pool1 with AllowedWorkspaces := some [] })])
    ∧ (answersNilAsEmpty canonicalStoreClient [pool1] "apool-1"
        ∧ sameUpToNil (resourceTFEAgentPoolAllowedWorkspacesUpdate canonicalStoreClient dataEmpty [pool1])
            (resourceTFEAgentPoolAllowedWorkspacesCreate canonicalStoreClient dataEmpty [pool1])) :=
  ⟨(update_equals_create_up_to_nil storeClient dataTwo [pool1]).1 (Or.inl (by decide)),
    (update_equals_create_up_to_nil storeClient dataEmpty [pool1]).2.1 rfl pool1
      (by decide) rfl,
    ⟨by unfold answersNilAsEmpty; decide,
      (update_equals_create_up_to_nil canonicalStoreClient dataEmpty [pool1]).2.2
        (by unfold answersNilAsEmpty; decide)⟩⟩

/-- C10 at the failing input: the resource exists locally with identifier `apool-1` and the
remote has no such pool.  Update returns success and the identifier is still
`apool-1`, not the empty string, where Read on the same input clears it. -/
theorem update_not_found_keeps_id :
    (resourceTFEAgentPoolAllowedWorkspacesUpdate goneClient dataEmpty ()).err = none
      ∧ (resourceTFEAgentPoolAllowedWorkspacesUpdate goneClient dataEmpty ()).d.Id = "apool-1"
      ∧ (resourceTFEAgentPoolAllowedWorkspacesUpdate goneClient dataEmpty ()).d.Id ≠ ""
      ∧ (resourceTFEAgentPoolAllowedWorkspacesRead goneClient dataEmpty ()).d.Id = "" := by
  decide

end TfeAgentPoolAllowedWorkspaces
